import Mathlib

/-!
Verification of the voice-assistant pipeline specification against a shallow
embedding of the repository sources.

Embedded source files:
* `src/jarvis/jarvis/engines/stt.py` — speech-to-text engines
  (`STTGoogleEngine`, `STTVernacularEngine`): audio capture, WAV framing,
  request construction, response parsing.
* `src/jarvis/jarvis/core/processor.py` — `Processor._process` pipeline order.
* `src/jarvis/jarvis/skills/assistant_activation/__init__.py` —
  activation/greeting/disable skills.
* `src/jarvis/vernacular/vernacular.py` — `KaldiServeClient` request framing.

Bytes are modelled as `List ℕ` (each entry a byte value); Python text as
`String`; Python `float` settings values that are only compared, never
rounded, as `ℚ`.
-/

/-! ## Little-endian integer encodings (Python `struct.pack` fields `<H`, `<L`) -/

/-- Little-endian 16-bit encoding of a natural, as the `wave` module's
`struct.pack` writes a `<H` field. -/
def u16le (n : ℕ) : List ℕ :=
  [n % 256, n / 256 % 256]

/-- Little-endian 32-bit encoding of a natural, as the `wave` module's
`struct.pack` writes a `<L` field. -/
def u32le (n : ℕ) : List ℕ :=
  [n % 256, n / 256 % 256, n / 65536 % 256, n / 16777216 % 256]

/-- ASCII byte values of a tag string such as `RIFF` or `fmt `. -/
def asciiBytes (s : String) : List ℕ :=
  s.toList.map Char.toNat

/-! ## `STTVernacularEngine._raw_bytes_to_wav` (stt.py lines 218-232)

The Python code opens an in-memory `wave` writer, sets the channel count,
sample width and frame rate, writes the raw PCM bytes and returns the buffer.
CPython's `wave` module emits a 44-byte RIFF/WAVE header (RIFF tag, chunk
size `36 + len(data)`, WAVE and `fmt ` tags, subchunk size 16, PCM format
tag 1, channel count, frame rate, byte rate, block align, bits per sample,
`data` tag, data length — the two length fields patched on close to the
total number of bytes written) followed by the payload bytes verbatim. -/

/-- The 44-byte header the `wave` module writes for uncompressed PCM with
`datalen` payload bytes. -/
def wavHeader (datalen frame_rate channels sample_width : ℕ) : List ℕ :=
  asciiBytes ("RIFF") ++ u32le (36 + datalen) ++
  asciiBytes ("WAVE") ++ asciiBytes ("fmt ") ++
  u32le 16 ++ u16le 1 ++ u16le channels ++ u32le frame_rate ++
  u32le (channels * frame_rate * sample_width) ++
  u16le (channels * sample_width) ++ u16le (sample_width * 8) ++
  asciiBytes ("data") ++ u32le datalen

/-- `STTVernacularEngine._raw_bytes_to_wav(data, frame_rate, channels,
sample_width)`: wrap raw PCM bytes into a WAV container. -/
def raw_bytes_to_wav (data : List ℕ) (frame_rate channels sample_width : ℕ) :
    List ℕ :=
  wavHeader data.length frame_rate channels sample_width ++ data

/-! ## `STTVernacularEngine._record` (stt.py lines 185-216)

The loop runs `int(sample_rate / chunk_size * max_audio_length)` times
(Python `int()` truncates the nonnegative float quotient, i.e. floor), and
each iteration yields one WAV-wrapped chunk read from the microphone.
`chunk_size` is 4000 samples in the source; `sample_rate`, `num_channels`,
`max_audio_length` come from the `SPEECH_RECOGNITION` settings and are
parameters here. -/

/-- Number of loop iterations of `_record`:
`int(sample_rate / chunk_size * max_audio_length)` in exact arithmetic. -/
def numChunks (sample_rate chunk_size max_audio_length : ℕ) : ℕ :=
  Nat.floor ((sample_rate : ℚ) / chunk_size * max_audio_length)

/-- `STTVernacularEngine._record`: the sequence of WAV-wrapped audio chunks
produced in one capture, with `mic i` the raw bytes the microphone returns
for the `i`-th `stream.read(chunk_size)` call. -/
def record (sample_rate chunk_size max_audio_length channels sample_width : ℕ)
    (mic : ℕ → List ℕ) : List (List ℕ) :=
  (List.range (numChunks sample_rate chunk_size max_audio_length)).map
    fun i => raw_bytes_to_wav (mic i) sample_rate channels sample_width

/-- The `_record` iteration count is the floor of the exact quotient
`sample_rate * max_audio_length / chunk_size`. -/
theorem numChunks_eq_div (r f d : ℕ) : numChunks r f d = r * d / f := by
  unfold numChunks
  rw [div_mul_eq_mul_div, ← Nat.cast_mul, Nat.floor_div_nat, Nat.floor_natCast]

/-! ## Recognition protocol data (vernacular_pb2 messages, vernacular.py)

The generated protobuf module `vernacular_pb2` is not among the sources;
its message shapes are reconstructed from how `stt.py` and `vernacular.py`
build and read them (`RecognitionConfig(...)`, `RecognitionAudio(content=...)`,
`RecognizeRequest(config=..., audio=..., uuid=...)`, `response.results`,
`res.alternatives`, `alt.transcript/confidence/am_score/lm_score`). -/

/-- Modelled from the spec: the audio-encoding enum of the recognition
protocol (`RecognitionConfig.AudioEncoding`); the generated protobuf module
is absent from the sources, and the spec fixes `encoding=LINEAR16` as one
of its values. -/
inductive AudioEncoding
  | LINEAR16
  | FLAC
  deriving DecidableEq

/-- `RecognitionConfig` message, with the fields `stt.py` sets. -/
structure RecognitionConfig where
  sample_rate_hertz : ℕ
  encoding : AudioEncoding
  language_code : String
  max_alternatives : ℕ
  mdl : String
  raw : Bool
  data_bytes : ℕ
  deriving DecidableEq

/-- `RecognizeRequest` message: a configuration, one chunk's audio payload
(`RecognitionAudio.content`), and the session uuid. -/
structure RecognizeRequest where
  config : RecognitionConfig
  audio : List ℕ
  uuid : String
  deriving DecidableEq

/-- One ranked alternative of a recognition result
(`alt.transcript/confidence/am_score/lm_score`). -/
structure SttAlternative where
  transcript : String
  confidence : ℚ
  am_score : ℚ
  lm_score : ℚ
  deriving DecidableEq

/-- One per-chunk result group (`res.alternatives`). -/
structure SttResult where
  alternatives : List SttAlternative
  deriving DecidableEq

/-- The streaming response (`response.results`). -/
structure RecognizeResponse where
  results : List SttResult
  deriving DecidableEq

/-! ## Request construction (stt.py lines 161-178, vernacular.py lines 26-28)

`recognize_input` builds `config = lambda chunk_len: RecognitionConfig(...)`
with `max_alternatives=5`, `raw=True`, `encoding=LINEAR16` and
`data_bytes=chunk_len`, pairs it with each chunk's `RecognitionAudio`, and
`KaldiServeClient.streaming_recognize_raw` turns each pair into one
`RecognizeRequest` with the shared `uuid` (passed as `""`). -/

/-- The per-chunk configuration closure from `recognize_input`
(`config = lambda chunk_len: RecognitionConfig(...)`). -/
def mkConfig (sample_rate : ℕ) (language_code mdl : String) (chunk_len : ℕ) :
    RecognitionConfig :=
  { sample_rate_hertz := sample_rate
    encoding := AudioEncoding.LINEAR16
    language_code := language_code
    max_alternatives := 5
    mdl := mdl
    raw := true
    data_bytes := chunk_len }

/-- `audio_params = [(config(len(chunk)), RecognitionAudio(content=chunk))
for chunk in audio_chunks]`. -/
def audio_params (sample_rate : ℕ) (language_code mdl : String)
    (audio_chunks : List (List ℕ)) : List (RecognitionConfig × List ℕ) :=
  audio_chunks.map fun chunk =>
    (mkConfig sample_rate language_code mdl chunk.length, chunk)

/-- `KaldiServeClient.streaming_recognize_raw`: the request stream
`(RecognizeRequest(config=config, audio=chunk, uuid=uuid)
for config, chunk in audio_params)`. -/
def streaming_recognize_raw_requests
    (params : List (RecognitionConfig × List ℕ)) (uuid : String) :
    List RecognizeRequest :=
  params.map fun p => { config := p.1, audio := p.2, uuid := uuid }

/-- The full request sequence `recognize_input` issues for one utterance:
`streaming_recognize_raw(audio_params, uuid="")`. -/
def recognize_requests (sample_rate : ℕ) (language_code mdl : String)
    (audio_chunks : List (List ℕ)) : List RecognizeRequest :=
  streaming_recognize_raw_requests
    (audio_params sample_rate language_code mdl audio_chunks) ("")

/-! ## Response handling (stt.py lines 155-183 and 234-245)

`recognize_input` initialises `response = {}`, runs the streaming call in a
`try` block whose `except Exception` only prints the traceback, then calls
`_parse_response(response)` and returns `output[0][0]['transcript']`.
A Python run of this tail either returns a transcript string or raises:
`AttributeError` when the streaming call failed (the leftover `{}` has no
`results` attribute), or `IndexError` when `output` or `output[0]` is empty. -/

/-- The result of running a Python expression: a value or a raised
exception, identified by its class name. -/
inductive PyResult (α : Type)
  | ok (val : α)
  | exn (exnClass : String)
  deriving DecidableEq

/-- Outcome of `self.client.streaming_recognize_raw(audio_params, uuid="")`
inside the `try` block: a response, or a raised transport/service error
(caught by `except Exception`, leaving `response = {}`). -/
inductive StreamOutcome
  | ok (resp : RecognizeResponse)
  | transportError
  deriving DecidableEq

/-- `STTVernacularEngine._parse_response`: flatten each result group into a
list of alternative records, preserving order. -/
def parse_response (response : RecognizeResponse) : List (List SttAlternative) :=
  response.results.map fun res =>
    res.alternatives.map fun alt =>
      { transcript := alt.transcript
        confidence := alt.confidence
        am_score := alt.am_score
        lm_score := alt.lm_score }

/-- The tail of `STTVernacularEngine.recognize_input` after the audio has
been streamed: `output = self._parse_response(response);
return output[0][0]['transcript']`. When the streaming call raised, the
leftover `response = {}` makes `_parse_response` raise `AttributeError` at
`response.results`; an empty `output` or empty `output[0]` raises
`IndexError` at the subscripts. -/
def recognize_input (outcome : StreamOutcome) : PyResult String :=
  match outcome with
  | StreamOutcome.transportError => PyResult.exn ("AttributeError")
  | StreamOutcome.ok resp =>
    match parse_response resp with
    | [] => PyResult.exn ("IndexError")
    | [] :: _ => PyResult.exn ("IndexError")
    | (alt :: _) :: _ => PyResult.ok alt.transcript

/-! ## `Processor._process` (processor.py lines 72-84)

The method calls, in textual order:
`skill_controller.get_transcript()` (capture + recognize),
`skill_controller.get_skills()` (match + gate), a positive or negative
response built from the latest transcript depending on
`skill_controller.to_execute`, `output_engine.assistant_response(response)`
(the spoken response is emitted), and finally `skill_controller.execute()`
(the matched skill handler is dispatched). -/

/-- The observable pipeline steps of one `Processor._process` run. -/
inductive PipelineStep
  | getTranscript
  | getSkills
  | buildPositiveResponse
  | buildNegativeResponse
  | emitResponse
  | execute
  deriving DecidableEq

/-- The sequence of steps `Processor._process` performs, with `to_execute`
the value of `skill_controller.to_execute` after `get_skills()`. -/
def process_trace (to_execute : Bool) : List PipelineStep :=
  [PipelineStep.getTranscript,
   PipelineStep.getSkills,
   if to_execute then PipelineStep.buildPositiveResponse
   else PipelineStep.buildNegativeResponse,
   PipelineStep.emitResponse,
   PipelineStep.execute]

/-! ## `ActivationSkills` (assistant_activation/__init__.py)

`assistant_greeting` reads the current hour and calls `cls.response` with
exactly one of three greetings; `disable_assistant` speaks `Bye`, clears
the console, logs, then calls `sys.exit()` and never returns. -/

/-- `ActivationSkills.assistant_greeting`: the `cls.response` calls made for
the hour `day_time = int(now.strftime('%H'))` (a value in `0..23`, but the
branching is total). The branches are `day_time < 12`, `12 <= day_time < 18`
and `else`. -/
def assistant_greeting (day_time : ℕ) : List String :=
  if day_time < 12 then ["Good morning human"]
  else if 12 ≤ day_time ∧ day_time < 18 then ["Good afternoon human"]
  else ["Good evening human"]

/-- An observable action of `ActivationSkills.disable_assistant`. -/
inductive DisableStep
  | speak (text : String)
  | sleep
  | clearConsole
  | logDebug (text : String)
  | sysExit
  deriving DecidableEq

/-- Whether a skill handler returns control to the pipeline or terminates
the process. -/
inductive HandlerExit
  | returns
  | terminatesProcess
  deriving DecidableEq

/-- `ActivationSkills.disable_assistant`: `cls.response('Bye')`,
`time.sleep(1)`, `clear()`, a debug log, then `sys.exit()`. -/
def disable_assistant_trace : List DisableStep :=
  [DisableStep.speak ("Bye"),
   DisableStep.sleep,
   DisableStep.clearConsole,
   DisableStep.logDebug ("Application terminated gracefully."),
   DisableStep.sysExit]

/-- How `disable_assistant` ends: `sys.exit()` raises `SystemExit`, so the
method never returns to its caller. -/
def disable_assistant_exit : HandlerExit :=
  HandlerExit.terminatesProcess

/-! ## `STTGoogleEngine.recognize_input` (stt.py lines 67-80)

The recorded audio is sent to `recognize_google`; on success the lowercased
transcript is returned, while `sr.UnknownValueError` and `sr.RequestError`
are caught, logged, and the method falls off the end, returning `None`. -/

/-- Outcome of `self.speech_recognizer.recognize_google(audio_text)`. -/
inductive GoogleRecognition
  | ok (transcript : String)
  | unknownValueError
  | requestError
  deriving DecidableEq

/-- `STTGoogleEngine.recognize_input`: return the lowercased transcript, or
`None` when recognition raised `UnknownValueError` or `RequestError`. -/
def google_recognize_input (result : GoogleRecognition) : Option String :=
  match result with
  | GoogleRecognition.ok transcript => some transcript.toLower
  | GoogleRecognition.unknownValueError => none
  | GoogleRecognition.requestError => none

/-! ## Claim theorems -/

/-- C1 (counterexample): the capture loop does not always produce
`ceil(sample_rate / frame_size * max_duration)` chunks: with
`sample_rate = 10000`, the source's frame size `4000`, and
`max_duration = 1`, it produces `int(2.5) = 2` chunks while the ceiling
is `3`. -/
theorem record_count_not_ceil :
    (record 10000 4000 1 1 2 (fun _ => ([] : List ℕ))).length ≠
      Nat.ceil ((10000 : ℚ) / 4000 * 1) := by
  have hlen : (record 10000 4000 1 1 2 (fun _ => ([] : List ℕ))).length = 2 := by
    simp [record, numChunks_eq_div]
  have hceil : Nat.ceil ((10000 : ℚ) / 4000 * 1) = 3 := by
    rw [Nat.ceil_eq_iff (by norm_num)]
    norm_num
  rw [hlen, hceil]
  decide

/-- C1 (amended): for every sample rate `r`, chunk frame size `f`, and
maximum capture duration `d`, `STTVernacularEngine._record` produces
exactly `floor(r / f * d)` AudioChunks — Python's `int()` truncates the
nonnegative quotient, so the count is the floor `r * d / f`, not the
ceiling. -/
theorem record_chunk_count (r f d ch sw : ℕ) (mic : ℕ → List ℕ) :
    (record r f d ch sw mic).length = r * d / f := by
  simp [record, numChunks_eq_div]

/-- C2: whenever the response has a first result group and that group has a
first (top-ranked) alternative, `STTVernacularEngine.recognize_input`
returns exactly that alternative's transcript text; no other chunk's or
alternative's text enters the result. -/
theorem recognize_input_first_alternative (resp : RecognizeResponse)
    (res : SttResult) (rest : List SttResult) (alt : SttAlternative)
    (alts : List SttAlternative)
    (hres : resp.results = res :: rest)
    (halt : res.alternatives = alt :: alts) :
    recognize_input (StreamOutcome.ok resp) = PyResult.ok alt.transcript := by
  simp [recognize_input, parse_response, hres, halt]

/-- C2 (witness): a two-chunk, multi-alternative response yields the first
chunk's first alternative. -/
theorem recognize_input_first_alternative_witness :
    recognize_input (StreamOutcome.ok
      { results :=
          [{ alternatives :=
              [{ transcript := "turn on the lights", confidence := 9 / 10,
                 am_score := -1, lm_score := -2 },
               { transcript := "turn off the lights", confidence := 1 / 2,
                 am_score := -3, lm_score := -4 }] },
           { alternatives :=
              [{ transcript := "second chunk text", confidence := 1,
                 am_score := 0, lm_score := 0 }] }] }) =
      PyResult.ok ("turn on the lights") :=
  recognize_input_first_alternative _ _ _ _ _ rfl rfl

/-- C3 (code evaluated at the failing input): when the response carries no
result group, `_parse_response` returns `[]` and the tail of
`recognize_input` raises `IndexError` at `output[0][0]` instead of
returning an empty/absent transcript. -/
theorem recognize_input_empty_results_raises :
    recognize_input (StreamOutcome.ok { results := [] }) =
      PyResult.exn ("IndexError") := rfl

/-- C4 (code evaluated at the failing input): when the streaming call
raises a transport error, the `except` block only prints the traceback and
leaves `response = {}`, so `_parse_response` raises `AttributeError` at
`response.results`; `recognize_input` raises instead of surfacing a
`RecognitionUnavailable` outcome. -/
theorem recognize_input_transport_error_raises :
    recognize_input StreamOutcome.transportError =
      PyResult.exn ("AttributeError") := rfl

set_option maxHeartbeats 1600000 in
/-- C5: `_raw_bytes_to_wav` returns the input payload prefixed by a
fixed-size (44-byte) header whose channel-count, frame-rate, block-align
and bits-per-sample fields carry exactly the given channels, frame rate and
sample width, leaving the PCM payload bytes unchanged. -/
theorem raw_bytes_to_wav_spec (data : List ℕ) (fr ch sw : ℕ) :
    raw_bytes_to_wav data fr ch sw = wavHeader data.length fr ch sw ++ data ∧
      (wavHeader data.length fr ch sw).length = 44 ∧
      (raw_bytes_to_wav data fr ch sw).drop 44 = data ∧
      ((raw_bytes_to_wav data fr ch sw).drop 22).take 2 = u16le ch ∧
      ((raw_bytes_to_wav data fr ch sw).drop 24).take 4 = u32le fr ∧
      ((raw_bytes_to_wav data fr ch sw).drop 32).take 2 = u16le (ch * sw) ∧
      ((raw_bytes_to_wav data fr ch sw).drop 34).take 2 = u16le (sw * 8) :=
  ⟨rfl, rfl, rfl, rfl, rfl, rfl, rfl⟩

/-- C6: one `RecognizeRequest` is issued per captured chunk, in chunk
order; every request carries the session uuid `""`, encoding `LINEAR16`,
`raw = true`, `max_alternatives` (the source's constant `5`) no greater
than any configured maximum `maxAlt ≥ 5`, and `data_bytes` equal to its own
chunk's payload length. -/
theorem recognize_requests_spec (sample_rate : ℕ) (language_code mdl : String)
    (audio_chunks : List (List ℕ)) (maxAlt : ℕ) (hmax : 5 ≤ maxAlt) :
    (recognize_requests sample_rate language_code mdl audio_chunks).length =
        audio_chunks.length ∧
      ∀ i req,
        (recognize_requests sample_rate language_code mdl audio_chunks).get? i =
            some req →
          req.uuid = "" ∧
            req.config.encoding = AudioEncoding.LINEAR16 ∧
            req.config.raw = true ∧
            req.config.max_alternatives ≤ maxAlt ∧
            audio_chunks.get? i = some req.audio ∧
            req.config.data_bytes = req.audio.length := by
  constructor
  · simp [recognize_requests, streaming_recognize_raw_requests, audio_params]
  · intro i req h
    rw [List.get?_eq_getElem?] at h
    simp only [recognize_requests, streaming_recognize_raw_requests,
      audio_params, List.map_map, List.getElem?_map] at h
    obtain ⟨chunk, hchunk, hreq⟩ := Option.map_eq_some'.mp h
    subst hreq
    refine ⟨rfl, rfl, rfl, hmax, ?_, rfl⟩
    rw [List.get?_eq_getElem?]
    exact hchunk

/-- C6 (witness): the request sequence for two concrete chunks, at the
configured maximum `5`. -/
theorem recognize_requests_spec_witness :
    5 ≤ 5 ∧
      ((recognize_requests 8000 ("en-IN") ("general") [[1, 2], [3]]).length =
          [[1, 2], [3]].length ∧
        ∀ i req,
          (recognize_requests 8000 ("en-IN") ("general") [[1, 2], [3]]).get? i =
              some req →
            req.uuid = "" ∧
              req.config.encoding = AudioEncoding.LINEAR16 ∧
              req.config.raw = true ∧
              req.config.max_alternatives ≤ 5 ∧
              ([[1, 2], [3]] : List (List ℕ)).get? i = some req.audio ∧
              req.config.data_bytes = req.audio.length) :=
  ⟨by decide,
   recognize_requests_spec 8000 ("en-IN") ("general") [[1, 2], [3]] 5 (by decide)⟩

/-- C7 (counterexample): in a `Processor._process` run with
`to_execute = true`, the dispatch step (`skill_controller.execute()`) does
not precede the response-building step — the response is built and emitted
first. -/
theorem process_trace_dispatch_not_before_response :
    ¬ ((process_trace true).indexOf PipelineStep.execute <
        (process_trace true).indexOf PipelineStep.buildPositiveResponse) := by
  decide

/-- C7 (amended): in every pipeline run the stages execute in the order
capture/recognize (`get_transcript`), match/gate (`get_skills`), response
build, response emission, and only then dispatch (`execute`): the spoken
response is built and emitted before the skill handler is dispatched, not
after. -/
theorem process_trace_order (to_execute : Bool) :
    (process_trace to_execute).indexOf PipelineStep.getTranscript <
        (process_trace to_execute).indexOf PipelineStep.getSkills ∧
      (process_trace to_execute).indexOf PipelineStep.getSkills <
        (process_trace to_execute).indexOf
          (if to_execute then PipelineStep.buildPositiveResponse
           else PipelineStep.buildNegativeResponse) ∧
      (process_trace to_execute).indexOf
          (if to_execute then PipelineStep.buildPositiveResponse
           else PipelineStep.buildNegativeResponse) <
        (process_trace to_execute).indexOf PipelineStep.emitResponse ∧
      (process_trace to_execute).indexOf PipelineStep.emitResponse <
        (process_trace to_execute).indexOf PipelineStep.execute := by
  cases to_execute <;> decide

/-- C8: for every hour `h`, `assistant_greeting` speaks exactly one
greeting, determined by the hour band: morning when `h < 12`, afternoon
when `12 ≤ h < 18`, evening otherwise. -/
theorem assistant_greeting_bands (day_time : ℕ) :
    (assistant_greeting day_time).length = 1 ∧
      (day_time < 12 → assistant_greeting day_time = ["Good morning human"]) ∧
      (12 ≤ day_time → day_time < 18 →
        assistant_greeting day_time = ["Good afternoon human"]) ∧
      (18 ≤ day_time → assistant_greeting day_time = ["Good evening human"]) := by
  unfold assistant_greeting
  refine ⟨?_, ?_, ?_, ?_⟩ <;> split_ifs <;> simp_all
  omega

/-- C8 (witness): one hour from each band. -/
theorem assistant_greeting_bands_witness :
    assistant_greeting 9 = ["Good morning human"] ∧
      assistant_greeting 13 = ["Good afternoon human"] ∧
      assistant_greeting 20 = ["Good evening human"] :=
  ⟨(assistant_greeting_bands 9).2.1 (by decide),
   (assistant_greeting_bands 13).2.2.1 (by decide) (by decide),
   (assistant_greeting_bands 20).2.2.2 (by decide)⟩

/-- C9: `disable_assistant` first speaks the farewell `Bye`, its last
action is `sys.exit()`, the farewell strictly precedes the exit, and the
handler terminates the process rather than returning control to the
pipeline. -/
theorem disable_assistant_farewell_then_exit :
    disable_assistant_trace.head? = some (DisableStep.speak ("Bye")) ∧
      disable_assistant_trace.getLast? = some DisableStep.sysExit ∧
      disable_assistant_trace.indexOf (DisableStep.speak ("Bye")) <
        disable_assistant_trace.indexOf DisableStep.sysExit ∧
      disable_assistant_exit = HandlerExit.terminatesProcess ∧
      disable_assistant_exit ≠ HandlerExit.returns :=
  ⟨rfl, rfl, by decide, rfl, by decide⟩

/-- C10: `STTGoogleEngine.recognize_input` either returns the recognized
transcript lowercased, or, when recognition fails with
`UnknownValueError` or `RequestError`, returns `None` instead of
propagating the exception. -/
theorem google_recognize_input_total (result : GoogleRecognition) :
    (∀ transcript, result = GoogleRecognition.ok transcript →
        google_recognize_input result = some transcript.toLower) ∧
      ((result = GoogleRecognition.unknownValueError ∨
          result = GoogleRecognition.requestError) →
        google_recognize_input result = none) := by
  cases result <;> simp [google_recognize_input]

/-- C10 (witness): a recognized transcript is lowercased; a request error
yields `None`. -/
theorem google_recognize_input_total_witness :
    google_recognize_input (GoogleRecognition.ok ("Hello World")) =
        some (String.toLower ("Hello World")) ∧
      google_recognize_input GoogleRecognition.requestError = none :=
  ⟨(google_recognize_input_total (GoogleRecognition.ok ("Hello World"))).1
      ("Hello World") rfl,
   (google_recognize_input_total GoogleRecognition.requestError).2 (Or.inr rfl)⟩
